import Mathlib

/-!
Shallow embedding of the `aws-console` CLI (github.com/eculver/aws-console).

The embedded code:
* `cmd/root.go` (`runWorkflow`, `ssoLogin`, `openBrowser`): the sequential
  credential-resolution workflow.  External collaborators (the AWS service,
  the federation URL builder, the SSO login command, the browser opener) are
  modelled as fields of `RunDeps` returning `Except String _`; the workflow
  additionally records the sequence of collaborator calls it performs and the
  status messages it writes, so that properties about call ordering and call
  counts can be stated.
* `pkg/aws/federation.go` (`FederationClient.BuildConsoleURL`): the HTTP
  exchange with the federation endpoint.  The HTTP client is a function from
  the request URL to an `Except`-wrapped response; the JSON decoding of the
  response body (`json.Unmarshal` into a struct with a `SigninToken` field)
  is represented by its outcome (`BodyDecode`).
* `net/url.QueryEscape` and the `encoding/json` string escaping used by
  `json.Marshal` are embedded byte-for-byte as `queryEscape` / `sessionJSON`.
-/

set_option autoImplicit false

namespace AwsConsole

/-- `aws.Identity` (pkg/aws/types.go): the principal returned by STS. -/
structure Identity where
  arn : String
  deriving DecidableEq, Repr

/-- `aws.Credentials` (pkg/aws/types.go): flat credential record. -/
structure Credentials where
  accessKeyID : String
  secretAccessKey : String
  sessionToken : String
  deriving DecidableEq, Repr

/-- One collaborator call performed by the workflow, with its arguments. -/
inductive CallEvent where
  | getCallerIdentity (profile : String)
  | login (profile : String)
  | retrieveCredentials (profile : String)
  | getSessionToken (profile : String) (durationSeconds : Int)
  | buildConsoleURL (creds : Credentials) (durationSeconds : Int)
  | openURL (url : String)
  deriving DecidableEq, Repr

/-- Is the event a `GetCallerIdentity` call? -/
def CallEvent.isGetCallerIdentity : CallEvent → Bool
  | .getCallerIdentity _ => true
  | _ => false

/-- Is the event an interactive-login invocation? -/
def CallEvent.isLogin : CallEvent → Bool
  | .login _ => true
  | _ => false

/-- Is the event a `RetrieveCredentials` call? -/
def CallEvent.isRetrieveCredentials : CallEvent → Bool
  | .retrieveCredentials _ => true
  | _ => false

/-- Is the event a `GetSessionToken` call? -/
def CallEvent.isGetSessionToken : CallEvent → Bool
  | .getSessionToken _ _ => true
  | _ => false

/-- Is the event a `BuildConsoleURL` call? -/
def CallEvent.isBuildConsoleURL : CallEvent → Bool
  | .buildConsoleURL _ _ => true
  | _ => false

/-- Is the event a browser-open invocation? -/
def CallEvent.isOpenURL : CallEvent → Bool
  | .openURL _ => true
  | _ => false

/-- `runDeps` (cmd/root.go): the collaborators of `runWorkflow`.  Each field
returns `Except String _` in place of Go's `(T, error)`.  Because the
interactive login may change external state between the two
`GetCallerIdentity` calls, the identity check takes the 0-based index of the
call as an extra argument; all other collaborators are fixed functions of
their Go arguments. -/
structure RunDeps where
  getCallerIdentity : Nat → String → Except String Identity
  login : String → Except String Unit
  retrieveCredentials : String → Except String Credentials
  getSessionToken : String → Int → Except String Credentials
  buildConsoleURL : Credentials → Int → Except String String
  openUrl : String → Except String Unit
  sessionDuration : Int

/-- Observable outcome of one `runWorkflow` execution: the returned error
value, the sequence of collaborator calls made, and the status messages
written to stdout and stderr. -/
structure RunResult where
  result : Except String Unit
  calls : List CallEvent
  stdoutMsgs : List String
  stderrMsgs : List String
  deriving Repr

/-- Tail of `runWorkflow` (cmd/root.go lines 139-146): record the
`BuildConsoleURL` call, return early on its failure, otherwise print the
status message and return the result of the browser-open call on the URL. -/
def buildAndOpen (deps : RunDeps) (creds : Credentials)
    (calls : List CallEvent) (outMsgs errMsgs : List String) : RunResult :=
  let calls := calls ++ [CallEvent.buildConsoleURL creds deps.sessionDuration]
  match deps.buildConsoleURL creds deps.sessionDuration with
  | .error e =>
      ⟨.error ("failed to build console URL: " ++ e), calls, outMsgs, errMsgs⟩
  | .ok loginURL =>
      ⟨deps.openUrl loginURL,
        calls ++ [CallEvent.openURL loginURL],
        outMsgs ++ ["Opening AWS Console in your browser..."],
        errMsgs⟩

/-- Middle of `runWorkflow` (cmd/root.go lines 122-136): after a successful
identity check, print the identity, retrieve credentials (early return on
failure), and request temporary credentials exactly when the retrieved
credentials carry no session token (early return on failure). -/
def afterAuth (profile : String) (deps : RunDeps) (identity : Identity)
    (calls : List CallEvent) (errMsgs : List String) : RunResult :=
  let outMsgs := ["Authenticated as: " ++ identity.arn]
  let calls := calls ++ [CallEvent.retrieveCredentials profile]
  match deps.retrieveCredentials profile with
  | .error e =>
      ⟨.error ("failed to retrieve credentials: " ++ e), calls, outMsgs, errMsgs⟩
  | .ok creds =>
      if creds.sessionToken = "" then
        let outMsgs := outMsgs ++ ["No session token found, requesting temporary credentials..."]
        let calls := calls ++ [CallEvent.getSessionToken profile deps.sessionDuration]
        match deps.getSessionToken profile deps.sessionDuration with
        | .error e =>
            ⟨.error ("failed to get temporary credentials: " ++ e), calls, outMsgs, errMsgs⟩
        | .ok creds2 => buildAndOpen deps creds2 calls outMsgs errMsgs
      else
        buildAndOpen deps creds calls outMsgs errMsgs

/-- `runWorkflow` (cmd/root.go lines 108-146): validate identity; on failure
print a notice to stderr, run the interactive login (early return on
failure), and re-check the identity once (early return on failure); then
continue with credential resolution (`afterAuth`). -/
def runWorkflow (profile : String) (deps : RunDeps) : RunResult :=
  match deps.getCallerIdentity 0 profile with
  | .ok identity =>
      afterAuth profile deps identity [CallEvent.getCallerIdentity profile] []
  | .error _ =>
      let errMsgs := ["Credentials are not valid, attempting SSO login..."]
      match deps.login profile with
      | .error loginErr =>
          ⟨.error ("SSO login failed: " ++ loginErr),
            [CallEvent.getCallerIdentity profile, CallEvent.login profile],
            [], errMsgs⟩
      | .ok _ =>
          match deps.getCallerIdentity 1 profile with
          | .error e =>
              ⟨.error ("credentials still invalid after SSO login: " ++ e),
                [CallEvent.getCallerIdentity profile, CallEvent.login profile,
                  CallEvent.getCallerIdentity profile],
                [], errMsgs⟩
          | .ok identity =>
              afterAuth profile deps identity
                [CallEvent.getCallerIdentity profile, CallEvent.login profile,
                  CallEvent.getCallerIdentity profile]
                errMsgs

/-- `ssoLogin` (cmd/root.go lines 149-156), as the single `executor.Run`
invocation it performs: command name and argument list. -/
def ssoLogin (profile : String) : String × List String :=
  let args := ["sso", "login"]
  let args := if profile ≠ "" then args ++ ["--profile", profile] else args
  ("aws", args)

/-- `openBrowser` (cmd/root.go lines 159-177), as the single
`executor.Start` invocation it performs (command name and argument list), or
the error it returns without invoking anything. -/
def openBrowser (targetURL : String) (goos : String) : Except String (String × List String) :=
  match goos with
  | "darwin" => .ok ("open", [targetURL])
  | "linux" => .ok ("xdg-open", [targetURL])
  | "windows" => .ok ("rundll32", ["url.dll,FileProtocolHandler", targetURL])
  | other => .error ("unsupported platform: " ++ other)

/-- Uppercase hexadecimal digit, as used by `net/url` percent-encoding. -/
def hexDigitUpper (n : Nat) : Char :=
  if n < 10 then Char.ofNat (48 + n) else Char.ofNat (55 + n)

/-- Lowercase hexadecimal digit, as used by `encoding/json` escapes. -/
def hexDigitLower (n : Nat) : Char :=
  if n < 10 then Char.ofNat (48 + n) else Char.ofNat (87 + n)

/-- Go `url.QueryEscape` on a single UTF-8 byte: alphanumerics and
`-` `_` `.` `~` are kept, a space becomes `+`, every other byte becomes
`%XX` with uppercase hex digits. -/
def escapeByte (b : UInt8) : String :=
  if b = 32 then "+"
  else if (65 ≤ b ∧ b ≤ 90) ∨ (97 ≤ b ∧ b ≤ 122) ∨ (48 ≤ b ∧ b ≤ 57)
      ∨ b = 45 ∨ b = 95 ∨ b = 46 ∨ b = 126 then
    String.singleton (Char.ofNat b.toNat)
  else
    "%" ++ String.singleton (hexDigitUpper (b.toNat / 16))
        ++ String.singleton (hexDigitUpper (b.toNat % 16))

/-- Go `url.QueryEscape`: byte-wise escaping of the UTF-8 encoding. -/
def queryEscape (s : String) : String :=
  s.toUTF8.toList.foldl (fun acc b => acc ++ escapeByte b) ""

/-- Go `encoding/json` escaping of one character inside a string literal
(default encoder: HTML-escapes `<` `>` `&`, uses `\uXXXX` with lowercase hex
for other control characters and for U+2028/U+2029). -/
def jsonEscapeChar (c : Char) : String :=
  if c = '"' then "\\\""
  else if c = '\\' then "\\\\"
  else if c = '\n' then "\\n"
  else if c = '\r' then "\\r"
  else if c = '\t' then "\\t"
  else if c = '<' then "\\u003c"
  else if c = '>' then "\\u003e"
  else if c = '&' then "\\u0026"
  else if c.toNat < 32 then
    "\\u00" ++ String.singleton (hexDigitLower (c.toNat / 16))
            ++ String.singleton (hexDigitLower (c.toNat % 16))
  else if c.toNat = 0x2028 then "\\u2028"
  else if c.toNat = 0x2029 then "\\u2029"
  else String.singleton c

/-- A JSON string literal for `s`, as produced by Go `json.Marshal`. -/
def jsonQuote (s : String) : String :=
  "\"" ++ String.join (s.toList.map jsonEscapeChar) ++ "\""

/-- `json.Marshal(sessionData)` in `BuildConsoleURL`
(pkg/aws/federation.go lines 47-56): a JSON object with the keys in Go's
sorted map-key order `sessionId`, `sessionKey`, `sessionToken`. -/
def sessionJSON (creds : Credentials) : String :=
  "\x7b" ++ jsonQuote "sessionId" ++ ":" ++ jsonQuote creds.accessKeyID
    ++ "," ++ jsonQuote "sessionKey" ++ ":" ++ jsonQuote creds.secretAccessKey
    ++ "," ++ jsonQuote "sessionToken" ++ ":" ++ jsonQuote creds.sessionToken
    ++ "\x7d"

/-- Outcome of `json.Unmarshal(body, &tokenResp)` in `BuildConsoleURL`
(pkg/aws/federation.go lines 85-93): `malformed` models an unmarshal error
(the body is not valid JSON for the sign-in token shape); `parsed tok`
models success with `tokenResp.SigninToken = tok` (the empty string when the
field is absent or empty). -/
inductive BodyDecode where
  | malformed
  | parsed (signinToken : String)
  deriving DecidableEq, Repr

/-- An HTTP response from the federation endpoint: status code, raw body
text (used in the non-200 error message), and the JSON decode outcome of the
body. -/
structure FederationResponse where
  statusCode : Nat
  rawBody : String
  decode : BodyDecode
  deriving Repr

/-- `FederationClient` (pkg/aws/federation.go): `doRequest` models
`f.client.Do` on a GET request for the given URL, folded together with the
request construction and body read (either of which yields `.error`). -/
structure FederationClient where
  doRequest : String → Except String FederationResponse
  federationURL : String
  consoleURL : String

/-- The `getSigninToken` request URL built by `BuildConsoleURL`
(pkg/aws/federation.go lines 58-63). -/
def getSigninTokenURL (f : FederationClient) (creds : Credentials)
    (durationSeconds : Int) : String :=
  f.federationURL ++ "?Action=getSigninToken&SessionDuration="
    ++ toString durationSeconds ++ "&Session=" ++ queryEscape (sessionJSON creds)

/-- `FederationClient.BuildConsoleURL` (pkg/aws/federation.go lines 46-105):
request a sign-in token from the federation endpoint, fail on a transport
error, a non-200 status, an undecodable body, or an empty token, and
otherwise return the federated console login URL.  Go's `("", err)` return
pairs are modelled as `Except.error`. -/
def FederationClient.BuildConsoleURL (f : FederationClient) (creds : Credentials)
    (durationSeconds : Int) : Except String String :=
  match f.doRequest (getSigninTokenURL f creds durationSeconds) with
  | .error e => .error ("failed to request signin token: " ++ e)
  | .ok resp =>
      if resp.statusCode ≠ 200 then
        .error ("federation endpoint returned HTTP " ++ toString resp.statusCode
          ++ ": " ++ resp.rawBody)
      else
        match resp.decode with
        | .malformed => .error "failed to parse signin token response"
        | .parsed signinToken =>
            if signinToken = "" then
              .error "received empty signin token from federation endpoint"
            else
              .ok (f.federationURL ++ "?Action=login&Issuer=aws-console-cli&Destination="
                ++ queryEscape f.consoleURL ++ "&SigninToken=" ++ queryEscape signinToken)

/-! ### Sample collaborators used by the closed witness statements -/

/-- Collaborators that all succeed; the retrieved credentials carry no
session token, so the sample run exercises the `GetSessionToken` upgrade. -/
def sampleDeps : RunDeps :=
  ⟨fun _ _ => .ok ⟨"arn:aws:iam::123456789012:user/alice"⟩,
    fun _ => .ok (),
    fun _ => .ok ⟨"AKIAEXAMPLE", "secretkeyexample", ""⟩,
    fun _ _ => .ok ⟨"ASIAEXAMPLE", "tempsecretexample", "temptokenexample"⟩,
    fun creds _ => .ok ("https://signin.aws.amazon.com/federation?SigninToken="
      ++ creds.sessionToken),
    fun _ => .ok (),
    43200⟩

/-- Collaborators for which the identity check always fails and the
interactive login also fails. -/
def loginFailDeps : RunDeps :=
  ⟨fun _ _ => .error "expired credentials",
    fun _ => .error "sso endpoint unreachable",
    fun _ => .ok ⟨"AKIAEXAMPLE", "secretkeyexample", "tok"⟩,
    fun _ _ => .ok ⟨"ASIAEXAMPLE", "tempsecretexample", "temptokenexample"⟩,
    fun _ _ => .ok "https://signin.aws.amazon.com/federation?SigninToken=t",
    fun _ => .ok (),
    43200⟩

/-- Sample credentials for witness statements. -/
def sampleCreds : Credentials :=
  ⟨"AKIAEXAMPLE", "secretkeyexample", "sessiontokenexample"⟩

/-- A federation client whose endpoint always answers 200 with a parsed
sign-in token. -/
def fedOk : FederationClient :=
  ⟨fun _ => .ok ⟨200, "\x7b\"SigninToken\":\"TOKEN\"\x7d", .parsed "TOKEN"⟩,
    "https://signin.aws.amazon.com/federation", "https://console.aws.amazon.com/"⟩

/-- A federation client whose endpoint always answers 404 with a
non-decodable body. -/
def fed404 : FederationClient :=
  ⟨fun _ => .ok ⟨404, "not found", .malformed⟩,
    "https://signin.aws.amazon.com/federation", "https://console.aws.amazon.com/"⟩

/-! ### Path lemmas for `runWorkflow` -/

theorem runWorkflow_firstOk {profile : String} {deps : RunDeps} {identity : Identity}
    (h : deps.getCallerIdentity 0 profile = .ok identity) :
    runWorkflow profile deps
      = afterAuth profile deps identity [CallEvent.getCallerIdentity profile] [] := by
  unfold runWorkflow
  rw [h]

theorem runWorkflow_loginErr {profile : String} {deps : RunDeps} {e le : String}
    (h : deps.getCallerIdentity 0 profile = .error e)
    (hl : deps.login profile = .error le) :
    runWorkflow profile deps
      = ⟨.error ("SSO login failed: " ++ le),
          [CallEvent.getCallerIdentity profile, CallEvent.login profile],
          [], ["Credentials are not valid, attempting SSO login..."]⟩ := by
  unfold runWorkflow
  rw [h, hl]

theorem runWorkflow_recheckErr {profile : String} {deps : RunDeps} {e e2 : String}
    (h : deps.getCallerIdentity 0 profile = .error e)
    (hl : deps.login profile = .ok ())
    (h2 : deps.getCallerIdentity 1 profile = .error e2) :
    runWorkflow profile deps
      = ⟨.error ("credentials still invalid after SSO login: " ++ e2),
          [CallEvent.getCallerIdentity profile, CallEvent.login profile,
            CallEvent.getCallerIdentity profile],
          [], ["Credentials are not valid, attempting SSO login..."]⟩ := by
  unfold runWorkflow
  rw [h, hl, h2]

theorem runWorkflow_recheckOk {profile : String} {deps : RunDeps} {e : String}
    {identity : Identity}
    (h : deps.getCallerIdentity 0 profile = .error e)
    (hl : deps.login profile = .ok ())
    (h2 : deps.getCallerIdentity 1 profile = .ok identity) :
    runWorkflow profile deps
      = afterAuth profile deps identity
          [CallEvent.getCallerIdentity profile, CallEvent.login profile,
            CallEvent.getCallerIdentity profile]
          ["Credentials are not valid, attempting SSO login..."] := by
  unfold runWorkflow
  rw [h, hl, h2]

theorem afterAuth_retrieveErr {profile : String} {deps : RunDeps} {identity : Identity}
    {calls : List CallEvent} {errMsgs : List String} {e : String}
    (h : deps.retrieveCredentials profile = .error e) :
    afterAuth profile deps identity calls errMsgs
      = ⟨.error ("failed to retrieve credentials: " ++ e),
          calls ++ [CallEvent.retrieveCredentials profile],
          ["Authenticated as: " ++ identity.arn], errMsgs⟩ := by
  unfold afterAuth
  rw [h]

theorem afterAuth_hasToken {profile : String} {deps : RunDeps} {identity : Identity}
    {calls : List CallEvent} {errMsgs : List String} {creds : Credentials}
    (h : deps.retrieveCredentials profile = .ok creds)
    (ht : creds.sessionToken ≠ "") :
    afterAuth profile deps identity calls errMsgs
      = buildAndOpen deps creds (calls ++ [CallEvent.retrieveCredentials profile])
          ["Authenticated as: " ++ identity.arn] errMsgs := by
  unfold afterAuth
  rw [h]
  simp [ht]

theorem afterAuth_noTokenErr {profile : String} {deps : RunDeps} {identity : Identity}
    {calls : List CallEvent} {errMsgs : List String} {creds : Credentials} {e : String}
    (h : deps.retrieveCredentials profile = .ok creds)
    (ht : creds.sessionToken = "")
    (hs : deps.getSessionToken profile deps.sessionDuration = .error e) :
    afterAuth profile deps identity calls errMsgs
      = ⟨.error ("failed to get temporary credentials: " ++ e),
          calls ++ [CallEvent.retrieveCredentials profile,
            CallEvent.getSessionToken profile deps.sessionDuration],
          ["Authenticated as: " ++ identity.arn,
            "No session token found, requesting temporary credentials..."],
          errMsgs⟩ := by
  unfold afterAuth
  rw [h]
  simp [ht, hs]

theorem afterAuth_noTokenOk {profile : String} {deps : RunDeps} {identity : Identity}
    {calls : List CallEvent} {errMsgs : List String} {creds creds2 : Credentials}
    (h : deps.retrieveCredentials profile = .ok creds)
    (ht : creds.sessionToken = "")
    (hs : deps.getSessionToken profile deps.sessionDuration = .ok creds2) :
    afterAuth profile deps identity calls errMsgs
      = buildAndOpen deps creds2
          (calls ++ [CallEvent.retrieveCredentials profile,
            CallEvent.getSessionToken profile deps.sessionDuration])
          ["Authenticated as: " ++ identity.arn,
            "No session token found, requesting temporary credentials..."]
          errMsgs := by
  unfold afterAuth
  rw [h]
  simp [ht, hs]

theorem buildAndOpen_err {deps : RunDeps} {creds : Credentials}
    {calls : List CallEvent} {outMsgs errMsgs : List String} {e : String}
    (h : deps.buildConsoleURL creds deps.sessionDuration = .error e) :
    buildAndOpen deps creds calls outMsgs errMsgs
      = ⟨.error ("failed to build console URL: " ++ e),
          calls ++ [CallEvent.buildConsoleURL creds deps.sessionDuration],
          outMsgs, errMsgs⟩ := by
  unfold buildAndOpen
  rw [h]

theorem buildAndOpen_ok {deps : RunDeps} {creds : Credentials}
    {calls : List CallEvent} {outMsgs errMsgs : List String} {loginURL : String}
    (h : deps.buildConsoleURL creds deps.sessionDuration = .ok loginURL) :
    buildAndOpen deps creds calls outMsgs errMsgs
      = ⟨deps.openUrl loginURL,
          calls ++ [CallEvent.buildConsoleURL creds deps.sessionDuration,
            CallEvent.openURL loginURL],
          outMsgs ++ ["Opening AWS Console in your browser..."], errMsgs⟩ := by
  unfold buildAndOpen
  rw [h]
  simp

attribute [simp] CallEvent.isGetCallerIdentity CallEvent.isLogin
  CallEvent.isRetrieveCredentials CallEvent.isGetSessionToken
  CallEvent.isBuildConsoleURL CallEvent.isOpenURL

/-- The calls recorded by `buildAndOpen` extend the given prefix and contain
no identity-check and no login events. -/
theorem buildAndOpen_calls_shape (deps : RunDeps) (creds : Credentials)
    (calls : List CallEvent) (outMsgs errMsgs : List String) :
    ∃ tail, (buildAndOpen deps creds calls outMsgs errMsgs).calls = calls ++ tail
      ∧ tail.countP CallEvent.isGetCallerIdentity = 0
      ∧ tail.countP CallEvent.isLogin = 0 := by
  cases hb : deps.buildConsoleURL creds deps.sessionDuration with
  | error e =>
      rw [buildAndOpen_err hb]
      exact ⟨[CallEvent.buildConsoleURL creds deps.sessionDuration], rfl, rfl, rfl⟩
  | ok u =>
      rw [buildAndOpen_ok hb]
      exact ⟨[CallEvent.buildConsoleURL creds deps.sessionDuration, CallEvent.openURL u],
        rfl, rfl, rfl⟩

/-- The calls recorded by `afterAuth` extend the given prefix and contain no
identity-check and no login events: all identity checking happens before
credential resolution. -/
theorem afterAuth_calls_shape (profile : String) (deps : RunDeps) (identity : Identity)
    (calls : List CallEvent) (errMsgs : List String) :
    ∃ tail, (afterAuth profile deps identity calls errMsgs).calls = calls ++ tail
      ∧ tail.countP CallEvent.isGetCallerIdentity = 0
      ∧ tail.countP CallEvent.isLogin = 0 := by
  cases h : deps.retrieveCredentials profile with
  | error e =>
      rw [afterAuth_retrieveErr h]
      exact ⟨[CallEvent.retrieveCredentials profile], rfl, rfl, rfl⟩
  | ok creds =>
      by_cases ht : creds.sessionToken = ""
      · cases hs : deps.getSessionToken profile deps.sessionDuration with
        | error e =>
            rw [afterAuth_noTokenErr h ht hs]
            exact ⟨[CallEvent.retrieveCredentials profile,
              CallEvent.getSessionToken profile deps.sessionDuration], rfl, rfl, rfl⟩
        | ok creds2 =>
            rw [afterAuth_noTokenOk h ht hs]
            obtain ⟨tail, hc, hg, hl⟩ := buildAndOpen_calls_shape deps creds2
              (calls ++ [CallEvent.retrieveCredentials profile,
                CallEvent.getSessionToken profile deps.sessionDuration]) _ errMsgs
            refine ⟨[CallEvent.retrieveCredentials profile,
              CallEvent.getSessionToken profile deps.sessionDuration] ++ tail,
              by rw [hc, List.append_assoc], ?_, ?_⟩
            · rw [List.countP_append, hg]
              rfl
            · rw [List.countP_append, hl]
              rfl
      · rw [afterAuth_hasToken h ht]
        obtain ⟨tail, hc, hg, hl⟩ := buildAndOpen_calls_shape deps creds
          (calls ++ [CallEvent.retrieveCredentials profile]) _ errMsgs
        refine ⟨[CallEvent.retrieveCredentials profile] ++ tail,
          by rw [hc, List.append_assoc], ?_, ?_⟩
        · rw [List.countP_append, hg]
          rfl
        · rw [List.countP_append, hl]
          rfl

/-! ### Claim theorems -/

/-- C6: the browser launcher selects the command solely from the platform
identifier — `open` on darwin, `xdg-open` on linux, `rundll32` with first
argument `url.dll,FileProtocolHandler` on windows — and in every supported
case the target URL is the final argument of the single invocation it
returns. -/
theorem openBrowser_platform_commands (url goos : String) :
    openBrowser url "darwin" = .ok ("open", [url])
    ∧ openBrowser url "linux" = .ok ("xdg-open", [url])
    ∧ openBrowser url "windows" = .ok ("rundll32", ["url.dll,FileProtocolHandler", url])
    ∧ (∀ cmd args, openBrowser url goos = .ok (cmd, args) → args.getLast? = some url) := by
  refine ⟨rfl, rfl, rfl, fun cmd args h => ?_⟩
  unfold openBrowser at h
  split at h <;> simp_all <;> simp [← h.2]

/-- C8: on any platform identifier outside darwin/linux/windows the browser
launcher returns the `unsupported platform` error and produces no command
invocation. -/
theorem openBrowser_unsupported_platform (goos url : String)
    (h1 : goos ≠ "darwin") (h2 : goos ≠ "linux") (h3 : goos ≠ "windows") :
    openBrowser url goos = .error ("unsupported platform: " ++ goos) := by
  unfold openBrowser
  split <;> simp_all

/-- Witness for C8 at the concrete platform `plan9`. -/
theorem openBrowser_unsupported_platform_witness :
    openBrowser "https://example.com/" "plan9"
      = .error ("unsupported platform: " ++ "plan9") :=
  openBrowser_unsupported_platform "plan9" "https://example.com/"
    (by decide) (by decide) (by decide)

/-- C10: the SSO login fallback runs `aws` with arguments starting
`sso login`, and appends `--profile <profile>` exactly when the profile is
non-empty. -/
theorem ssoLogin_command (profile : String) :
    (ssoLogin profile).1 = "aws"
    ∧ ((ssoLogin profile).2).take 2 = ["sso", "login"]
    ∧ (profile = "" → (ssoLogin profile).2 = ["sso", "login"])
    ∧ (profile ≠ "" → (ssoLogin profile).2 = ["sso", "login", "--profile", profile]) := by
  by_cases h : profile = "" <;> simp [ssoLogin, h]

/-- C4: when the federation endpoint answers the token request with HTTP 200
and a body that decodes to a non-empty `SigninToken`, `BuildConsoleURL`
returns, without error, the federation endpoint address followed by
`Action=login`, `Issuer=aws-console-cli`, the query-escaped console
destination URL and the query-escaped sign-in token. -/
theorem BuildConsoleURL_success (f : FederationClient) (creds : Credentials)
    (durationSeconds : Int) (resp : FederationResponse) (tok : String)
    (hreq : f.doRequest (getSigninTokenURL f creds durationSeconds) = .ok resp)
    (hstatus : resp.statusCode = 200)
    (hdecode : resp.decode = .parsed tok)
    (htok : tok ≠ "") :
    f.BuildConsoleURL creds durationSeconds
      = .ok (f.federationURL ++ "?Action=login&Issuer=aws-console-cli&Destination="
          ++ queryEscape f.consoleURL ++ "&SigninToken=" ++ queryEscape tok) := by
  unfold FederationClient.BuildConsoleURL
  rw [hreq]
  simp [hstatus, hdecode, htok]

/-- Witness for C4 on the always-succeeding sample federation client. -/
theorem BuildConsoleURL_success_witness :
    fedOk.BuildConsoleURL sampleCreds 43200
      = .ok (fedOk.federationURL ++ "?Action=login&Issuer=aws-console-cli&Destination="
          ++ queryEscape fedOk.consoleURL ++ "&SigninToken=" ++ queryEscape "TOKEN") :=
  BuildConsoleURL_success fedOk sampleCreds 43200
    ⟨200, "\x7b\"SigninToken\":\"TOKEN\"\x7d", .parsed "TOKEN"⟩ "TOKEN"
    rfl rfl rfl (by decide)

/-- C9: given the response the endpoint actually produced, `BuildConsoleURL`
fails (Go's `("", err)` pair, modelled as `.error`) whenever the status code
is not 200, or the body does not decode, or the decoded `SigninToken` is
empty; and it returns a URL exactly when none of those hold. -/
theorem BuildConsoleURL_error_cases (f : FederationClient) (creds : Credentials)
    (durationSeconds : Int) (resp : FederationResponse)
    (hreq : f.doRequest (getSigninTokenURL f creds durationSeconds) = .ok resp) :
    (resp.statusCode ≠ 200 → ∃ e, f.BuildConsoleURL creds durationSeconds = .error e)
    ∧ (resp.decode = .malformed → ∃ e, f.BuildConsoleURL creds durationSeconds = .error e)
    ∧ (resp.decode = .parsed "" → ∃ e, f.BuildConsoleURL creds durationSeconds = .error e)
    ∧ ((∃ u, f.BuildConsoleURL creds durationSeconds = .ok u)
        ↔ resp.statusCode = 200 ∧ resp.decode ≠ .malformed ∧ resp.decode ≠ .parsed "") := by
  unfold FederationClient.BuildConsoleURL
  rw [hreq]
  by_cases hstatus : resp.statusCode = 200
  · cases hdec : resp.decode with
    | malformed => simp [hstatus, hdec]
    | parsed tok =>
        by_cases htok : tok = "" <;> simp [hstatus, hdec, htok]
  · simp [hstatus]

/-- Witness for C9 on the sample client answering HTTP 404. -/
theorem BuildConsoleURL_error_cases_witness :
    ∃ e, fed404.BuildConsoleURL sampleCreds 43200 = .error e :=
  (BuildConsoleURL_error_cases fed404 sampleCreds 43200
    ⟨404, "not found", .malformed⟩ rfl).1 (by decide)

/-- C1 counterexample: with collaborators whose identity check fails and
whose interactive login also fails, the first identity check fails and the
login is invoked, yet `GetCallerIdentity` is called only once in total — the
promised second identity check never happens. -/
theorem workflow_retry_counterexample :
    (∃ e, loginFailDeps.getCallerIdentity 0 "dev" = .error e)
    ∧ (runWorkflow "dev" loginFailDeps).calls.countP CallEvent.isLogin = 1
    ∧ (runWorkflow "dev" loginFailDeps).calls.countP CallEvent.isGetCallerIdentity = 1 :=
  ⟨⟨"expired credentials", rfl⟩, rfl, rfl⟩

/-- C1 (amended): if the first identity check fails the workflow invokes the
interactive login exactly once; if the login succeeds it calls
`GetCallerIdentity` exactly one more time, and returns an error when that
second check fails; if the login fails it returns an error without a second
identity check.  `GetCallerIdentity` is never called more than twice, the
login never more than once, and the login is not invoked at all when the
first identity check succeeds. -/
theorem workflow_identity_retry (profile : String) (deps : RunDeps) :
    (runWorkflow profile deps).calls.countP CallEvent.isGetCallerIdentity ≤ 2
    ∧ (runWorkflow profile deps).calls.countP CallEvent.isLogin ≤ 1
    ∧ (∀ identity, deps.getCallerIdentity 0 profile = .ok identity →
        (runWorkflow profile deps).calls.countP CallEvent.isLogin = 0
        ∧ (runWorkflow profile deps).calls.countP CallEvent.isGetCallerIdentity = 1)
    ∧ (∀ e, deps.getCallerIdentity 0 profile = .error e →
        (runWorkflow profile deps).calls.countP CallEvent.isLogin = 1
        ∧ List.IsPrefix [CallEvent.getCallerIdentity profile, CallEvent.login profile]
            (runWorkflow profile deps).calls
        ∧ (∀ le, deps.login profile = .error le →
            (runWorkflow profile deps).calls.countP CallEvent.isGetCallerIdentity = 1
            ∧ ∃ m, (runWorkflow profile deps).result = .error m)
        ∧ (deps.login profile = .ok () →
            (runWorkflow profile deps).calls.countP CallEvent.isGetCallerIdentity = 2
            ∧ List.IsPrefix [CallEvent.getCallerIdentity profile, CallEvent.login profile,
                CallEvent.getCallerIdentity profile] (runWorkflow profile deps).calls
            ∧ ∀ e2, deps.getCallerIdentity 1 profile = .error e2 →
                ∃ m, (runWorkflow profile deps).result = .error m)) := by
  cases h0 : deps.getCallerIdentity 0 profile with
  | ok id0 =>
      obtain ⟨tail, hc, hg, hl⟩ := afterAuth_calls_shape profile deps id0
        [CallEvent.getCallerIdentity profile] []
      rw [runWorkflow_firstOk h0, hc]
      refine ⟨?_, ?_, fun _ _ => ⟨?_, ?_⟩, fun e he => by simp at he⟩
      · rw [List.countP_append, hg]
        simp
      · rw [List.countP_append, hl]
        simp
      · rw [List.countP_append, hl]
        rfl
      · rw [List.countP_append, hg]
        rfl
  | error e0 =>
      cases hlg : deps.login profile with
      | error le =>
          rw [runWorkflow_loginErr h0 hlg]
          refine ⟨by simp, by simp, fun id hid => by simp at hid,
            fun e he => ⟨rfl, ⟨[], by simp⟩,
              fun le' hle' => ⟨rfl, ⟨_, rfl⟩⟩,
              fun hok => by simp at hok⟩⟩
      | ok u =>
          obtain ⟨⟩ := u
          cases h1 : deps.getCallerIdentity 1 profile with
          | error e2 =>
              rw [runWorkflow_recheckErr h0 hlg h1]
              refine ⟨by simp, by simp, fun id hid => by simp at hid,
                fun e he => ⟨rfl, ⟨[CallEvent.getCallerIdentity profile], rfl⟩,
                  fun le' hle' => by simp at hle',
                  fun _ => ⟨rfl, ⟨[], by simp⟩, fun e2' he2 => ⟨_, rfl⟩⟩⟩⟩
          | ok id1 =>
              obtain ⟨tail, hc, hg, hl⟩ := afterAuth_calls_shape profile deps id1
                [CallEvent.getCallerIdentity profile, CallEvent.login profile,
                  CallEvent.getCallerIdentity profile]
                ["Credentials are not valid, attempting SSO login..."]
              rw [runWorkflow_recheckOk h0 hlg h1, hc]
              refine ⟨?_, ?_, fun id hid => by simp at hid,
                fun e he => ⟨?_, ⟨[CallEvent.getCallerIdentity profile] ++ tail, by simp⟩,
                  fun le' hle' => by simp at hle',
                  fun _ => ⟨?_, ⟨tail, rfl⟩, fun e2' he2 => by simp at he2⟩⟩⟩
              · rw [List.countP_append, hg]
                simp
              · rw [List.countP_append, hl]
                simp
              · rw [List.countP_append, hl]
                rfl
              · rw [List.countP_append, hg]
                rfl

/-- A call list whose `buildConsoleURL`/`openURL` filter is empty contains
no build event and no open event. -/
theorem clean_not_mem {l : List CallEvent}
    (h : l.filter (fun ev => ev.isBuildConsoleURL || ev.isOpenURL) = []) :
    (∀ c d, CallEvent.buildConsoleURL c d ∉ l) ∧ (∀ u, CallEvent.openURL u ∉ l) := by
  constructor
  · intro c d hin
    have hmem : CallEvent.buildConsoleURL c d
        ∈ l.filter (fun ev => ev.isBuildConsoleURL || ev.isOpenURL) :=
      List.mem_filter_of_mem hin rfl
    rw [h] at hmem
    exact absurd hmem (List.not_mem_nil _)
  · intro u hin
    have hmem : CallEvent.openURL u
        ∈ l.filter (fun ev => ev.isBuildConsoleURL || ev.isOpenURL) :=
      List.mem_filter_of_mem hin rfl
    rw [h] at hmem
    exact absurd hmem (List.not_mem_nil _)

/-- If `buildAndOpen` recorded a `BuildConsoleURL` call for `creds` (over a
prefix holding no build/open events) and that collaborator call returned
`url`, then the run's result is the browser-open result on `url` and the
open event on `url` is the unique, final open event. -/
theorem buildAndOpen_opens_built_url {deps : RunDeps} {creds0 creds : Credentials}
    {calls0 : List CallEvent} {outMsgs errMsgs : List String} {url : String}
    (hmem : CallEvent.buildConsoleURL creds deps.sessionDuration
      ∈ (buildAndOpen deps creds0 calls0 outMsgs errMsgs).calls)
    (hurl : deps.buildConsoleURL creds deps.sessionDuration = .ok url)
    (hclean : calls0.filter (fun ev => ev.isBuildConsoleURL || ev.isOpenURL) = []) :
    (buildAndOpen deps creds0 calls0 outMsgs errMsgs).result = deps.openUrl url
    ∧ (buildAndOpen deps creds0 calls0 outMsgs errMsgs).calls.getLast?
        = some (CallEvent.openURL url)
    ∧ (buildAndOpen deps creds0 calls0 outMsgs errMsgs).calls.filter CallEvent.isOpenURL
        = [CallEvent.openURL url] := by
  obtain ⟨hnb, hno⟩ := clean_not_mem hclean
  have hopen : calls0.filter CallEvent.isOpenURL = [] := by
    refine List.filter_eq_nil_iff.mpr fun a ha => ?_
    have := List.filter_eq_nil_iff.mp hclean a ha
    simp at this ⊢
    exact this.2
  cases hb : deps.buildConsoleURL creds0 deps.sessionDuration with
  | error e =>
      rw [buildAndOpen_err hb] at hmem
      rcases List.mem_append.mp hmem with hin | hin
      · exact absurd hin (hnb _ _)
      · simp at hin
        rw [hin] at hurl
        rw [hb] at hurl
        simp at hurl
  | ok u =>
      rw [buildAndOpen_ok hb] at hmem ⊢
      rcases List.mem_append.mp hmem with hin | hin
      · exact absurd hin (hnb _ _)
      · simp at hin
        rw [hin] at hurl
        rw [hb] at hurl
        obtain rfl : u = url := by injection hurl
        refine ⟨rfl, ?_, ?_⟩
        · rw [List.getLast?_append_cons]
          rfl
        · rw [List.filter_append, hopen]
          rfl

/-- As `buildAndOpen_opens_built_url`, one stage earlier: from
`afterAuth`. -/
theorem afterAuth_opens_built_url {profile : String} {deps : RunDeps} {identity : Identity}
    {calls0 : List CallEvent} {errMsgs : List String} {creds : Credentials} {url : String}
    (hmem : CallEvent.buildConsoleURL creds deps.sessionDuration
      ∈ (afterAuth profile deps identity calls0 errMsgs).calls)
    (hurl : deps.buildConsoleURL creds deps.sessionDuration = .ok url)
    (hclean : calls0.filter (fun ev => ev.isBuildConsoleURL || ev.isOpenURL) = []) :
    (afterAuth profile deps identity calls0 errMsgs).result = deps.openUrl url
    ∧ (afterAuth profile deps identity calls0 errMsgs).calls.getLast?
        = some (CallEvent.openURL url)
    ∧ (afterAuth profile deps identity calls0 errMsgs).calls.filter CallEvent.isOpenURL
        = [CallEvent.openURL url] := by
  obtain ⟨hnb, hno⟩ := clean_not_mem hclean
  cases hr : deps.retrieveCredentials profile with
  | error e =>
      rw [afterAuth_retrieveErr hr] at hmem
      rcases List.mem_append.mp hmem with hin | hin
      · exact absurd hin (hnb _ _)
      · simp at hin
  | ok creds' =>
      by_cases ht : creds'.sessionToken = ""
      · cases hs : deps.getSessionToken profile deps.sessionDuration with
        | error e =>
            rw [afterAuth_noTokenErr hr ht hs] at hmem
            rcases List.mem_append.mp hmem with hin | hin
            · exact absurd hin (hnb _ _)
            · simp at hin
        | ok creds2 =>
            rw [afterAuth_noTokenOk hr ht hs] at hmem ⊢
            exact buildAndOpen_opens_built_url hmem hurl
              (by rw [List.filter_append, hclean]; rfl)
      · rw [afterAuth_hasToken hr ht] at hmem ⊢
        exact buildAndOpen_opens_built_url hmem hurl
          (by rw [List.filter_append, hclean]; rfl)

/-- C7: the workflow is deterministic and stateless — it is a pure function
of the profile and the collaborator responses, so two runs with the same
profile and the same collaborators agree on the result, on the sequence of
collaborator calls with their arguments, and on the status messages written
to stdout and stderr. -/
theorem workflow_deterministic (profile : String) (deps : RunDeps) (r1 r2 : RunResult)
    (h1 : r1 = runWorkflow profile deps) (h2 : r2 = runWorkflow profile deps) :
    r1.result = r2.result ∧ r1.calls = r2.calls
    ∧ r1.stdoutMsgs = r2.stdoutMsgs ∧ r1.stderrMsgs = r2.stderrMsgs := by
  subst h1
  subst h2
  exact ⟨rfl, rfl, rfl, rfl⟩

/-- Witness for C7 at a concrete profile and concrete collaborators. -/
theorem workflow_deterministic_witness :
    (runWorkflow "dev" sampleDeps).result = (runWorkflow "dev" sampleDeps).result
    ∧ (runWorkflow "dev" sampleDeps).calls = (runWorkflow "dev" sampleDeps).calls
    ∧ (runWorkflow "dev" sampleDeps).stdoutMsgs = (runWorkflow "dev" sampleDeps).stdoutMsgs
    ∧ (runWorkflow "dev" sampleDeps).stderrMsgs = (runWorkflow "dev" sampleDeps).stderrMsgs :=
  workflow_deterministic "dev" sampleDeps
    (runWorkflow "dev" sampleDeps) (runWorkflow "dev" sampleDeps) rfl rfl

/-- C5: whenever the workflow makes a `BuildConsoleURL` call and that call
succeeds with some URL, the workflow's result is exactly the result of the
browser-open call on that URL, the browser opener is invoked exactly once,
and the URL it receives is the built URL unmodified (the open event is also
the last collaborator call). -/
theorem workflow_opens_built_url (profile : String) (deps : RunDeps)
    (creds : Credentials) (url : String)
    (hmem : CallEvent.buildConsoleURL creds deps.sessionDuration ∈ (runWorkflow profile deps).calls)
    (hurl : deps.buildConsoleURL creds deps.sessionDuration = .ok url) :
    (runWorkflow profile deps).result = deps.openUrl url
    ∧ (runWorkflow profile deps).calls.getLast? = some (CallEvent.openURL url)
    ∧ (runWorkflow profile deps).calls.filter CallEvent.isOpenURL = [CallEvent.openURL url] := by
  cases h0 : deps.getCallerIdentity 0 profile with
  | ok id0 =>
      rw [runWorkflow_firstOk h0] at hmem ⊢
      exact afterAuth_opens_built_url hmem hurl rfl
  | error e0 =>
      cases hlg : deps.login profile with
      | error le =>
          rw [runWorkflow_loginErr h0 hlg] at hmem
          simp at hmem
      | ok u =>
          obtain ⟨⟩ := u
          cases h1 : deps.getCallerIdentity 1 profile with
          | error e2 =>
              rw [runWorkflow_recheckErr h0 hlg h1] at hmem
              simp at hmem
          | ok id1 =>
              rw [runWorkflow_recheckOk h0 hlg h1] at hmem ⊢
              exact afterAuth_opens_built_url hmem hurl rfl

/-- Witness for C5 on the all-succeeding sample collaborators: the URL built
from the upgraded credentials is the one handed to the browser opener. -/
theorem workflow_opens_built_url_witness :
    (runWorkflow "dev" sampleDeps).result
      = sampleDeps.openUrl "https://signin.aws.amazon.com/federation?SigninToken=temptokenexample"
    ∧ (runWorkflow "dev" sampleDeps).calls.getLast?
      = some (CallEvent.openURL
          "https://signin.aws.amazon.com/federation?SigninToken=temptokenexample")
    ∧ (runWorkflow "dev" sampleDeps).calls.filter CallEvent.isOpenURL
      = [CallEvent.openURL
          "https://signin.aws.amazon.com/federation?SigninToken=temptokenexample"] :=
  workflow_opens_built_url "dev" sampleDeps
    ⟨"ASIAEXAMPLE", "tempsecretexample", "temptokenexample"⟩
    "https://signin.aws.amazon.com/federation?SigninToken=temptokenexample"
    (by decide) rfl

/-- Credential-resolution behaviour of `afterAuth` over a prefix holding no
`GetSessionToken` and no `BuildConsoleURL` events: the session-token request
happens exactly when the retrieved credentials lack a session token, and the
credentials passed to the URL builder are the upgraded ones in that case and
the retrieved ones otherwise. -/
theorem afterAuth_token_upgrade {profile : String} {deps : RunDeps} {identity : Identity}
    {calls0 : List CallEvent} {errMsgs : List String} {creds : Credentials}
    (hret : deps.retrieveCredentials profile = .ok creds)
    (hg : calls0.filter CallEvent.isGetSessionToken = [])
    (hb : calls0.filter CallEvent.isBuildConsoleURL = []) :
    ((afterAuth profile deps identity calls0 errMsgs).calls.filter CallEvent.isGetSessionToken
        = if creds.sessionToken = "" then
            [CallEvent.getSessionToken profile deps.sessionDuration] else [])
    ∧ (creds.sessionToken = "" →
        (∀ creds2, deps.getSessionToken profile deps.sessionDuration = .ok creds2 →
          (afterAuth profile deps identity calls0 errMsgs).calls.filter
              CallEvent.isBuildConsoleURL
            = [CallEvent.buildConsoleURL creds2 deps.sessionDuration])
        ∧ (∀ e, deps.getSessionToken profile deps.sessionDuration = .error e →
          (afterAuth profile deps identity calls0 errMsgs).calls.filter
              CallEvent.isBuildConsoleURL = []))
    ∧ (creds.sessionToken ≠ "" →
        (afterAuth profile deps identity calls0 errMsgs).calls.filter
            CallEvent.isBuildConsoleURL
          = [CallEvent.buildConsoleURL creds deps.sessionDuration]) := by
  by_cases ht : creds.sessionToken = ""
  · cases hs : deps.getSessionToken profile deps.sessionDuration with
    | error e =>
        rw [afterAuth_noTokenErr hret ht hs]
        refine ⟨?_, fun _ => ⟨fun c2 hc2 => by simp at hc2, fun e' he' => ?_⟩,
          fun h => absurd ht h⟩
        · rw [if_pos ht, List.filter_append, hg]
          rfl
        · rw [List.filter_append, hb]
          rfl
    | ok creds2 =>
        rw [afterAuth_noTokenOk hret ht hs]
        cases hb2 : deps.buildConsoleURL creds2 deps.sessionDuration with
        | error e =>
            rw [buildAndOpen_err hb2]
            refine ⟨?_, fun _ => ⟨fun c2 hc2 => ?_, fun e' he' => by simp at he'⟩,
              fun h => absurd ht h⟩
            · rw [if_pos ht, List.filter_append, List.filter_append, hg]
              rfl
            · obtain rfl : creds2 = c2 := by injection hc2
              rw [List.filter_append, List.filter_append, hb]
              rfl
        | ok u =>
            rw [buildAndOpen_ok hb2]
            refine ⟨?_, fun _ => ⟨fun c2 hc2 => ?_, fun e' he' => by simp at he'⟩,
              fun h => absurd ht h⟩
            · rw [if_pos ht, List.filter_append, List.filter_append, hg]
              rfl
            · obtain rfl : creds2 = c2 := by injection hc2
              rw [List.filter_append, List.filter_append, hb]
              rfl
  · rw [afterAuth_hasToken hret ht]
    cases hb2 : deps.buildConsoleURL creds deps.sessionDuration with
    | error e =>
        rw [buildAndOpen_err hb2]
        refine ⟨?_, fun h => absurd h ht, fun _ => ?_⟩
        · rw [if_neg ht, List.filter_append, List.filter_append, hg]
          rfl
        · rw [List.filter_append, List.filter_append, hb]
          rfl
    | ok u =>
        rw [buildAndOpen_ok hb2]
        refine ⟨?_, fun h => absurd h ht, fun _ => ?_⟩
        · rw [if_neg ht, List.filter_append, List.filter_append, hg]
          rfl
        · rw [List.filter_append, List.filter_append, hb]
          rfl

/-- C2: in every execution that reaches credential resolution, the
`GetSessionToken` request is made (exactly once) if and only if the
retrieved credentials have an empty session token; the credentials passed
on to the token exchanger are exactly those returned by `GetSessionToken`
when it is made, and exactly the retrieved credentials, unchanged, when it
is not. -/
theorem workflow_token_upgrade (profile : String) (deps : RunDeps) (creds : Credentials)
    (hmem : CallEvent.retrieveCredentials profile ∈ (runWorkflow profile deps).calls)
    (hret : deps.retrieveCredentials profile = .ok creds) :
    ((runWorkflow profile deps).calls.filter CallEvent.isGetSessionToken
        = if creds.sessionToken = "" then
            [CallEvent.getSessionToken profile deps.sessionDuration] else [])
    ∧ (creds.sessionToken = "" →
        (∀ creds2, deps.getSessionToken profile deps.sessionDuration = .ok creds2 →
          (runWorkflow profile deps).calls.filter CallEvent.isBuildConsoleURL
            = [CallEvent.buildConsoleURL creds2 deps.sessionDuration])
        ∧ (∀ e, deps.getSessionToken profile deps.sessionDuration = .error e →
          (runWorkflow profile deps).calls.filter CallEvent.isBuildConsoleURL = []))
    ∧ (creds.sessionToken ≠ "" →
        (runWorkflow profile deps).calls.filter CallEvent.isBuildConsoleURL
          = [CallEvent.buildConsoleURL creds deps.sessionDuration]) := by
  cases h0 : deps.getCallerIdentity 0 profile with
  | ok id0 =>
      rw [runWorkflow_firstOk h0]
      exact afterAuth_token_upgrade hret rfl rfl
  | error e0 =>
      cases hlg : deps.login profile with
      | error le =>
          rw [runWorkflow_loginErr h0 hlg] at hmem
          simp at hmem
      | ok u =>
          obtain ⟨⟩ := u
          cases h1 : deps.getCallerIdentity 1 profile with
          | error e2 =>
              rw [runWorkflow_recheckErr h0 hlg h1] at hmem
              simp at hmem
          | ok id1 =>
              rw [runWorkflow_recheckOk h0 hlg h1]
              exact afterAuth_token_upgrade hret rfl rfl

/-- Witness for C2 on the sample collaborators, whose retrieved credentials
lack a session token: the temporary-credentials request is made once. -/
theorem workflow_token_upgrade_witness :
    (runWorkflow "dev" sampleDeps).calls.filter CallEvent.isGetSessionToken
      = [CallEvent.getSessionToken "dev" 43200] :=
  (workflow_token_upgrade "dev" sampleDeps ⟨"AKIAEXAMPLE", "secretkeyexample", ""⟩
    (by decide) rfl).1

/-- A call list with no build/open events filters to nothing under
`isOpenURL` alone. -/
theorem clean_filter_open {l : List CallEvent}
    (h : l.filter (fun ev => ev.isBuildConsoleURL || ev.isOpenURL) = []) :
    l.filter CallEvent.isOpenURL = [] := by
  refine List.filter_eq_nil_iff.mpr fun a ha => ?_
  have := List.filter_eq_nil_iff.mp h a ha
  simp at this ⊢
  exact this.2

/-- If `afterAuth` (over a prefix with no build/open events) recorded a
`BuildConsoleURL` call for `creds` and that collaborator call fails, the run
returns an error and never invokes the browser opener. -/
theorem afterAuth_build_fail {profile : String} {deps : RunDeps} {identity : Identity}
    {calls0 : List CallEvent} {errMsgs : List String} {creds : Credentials} {e : String}
    (hmem : CallEvent.buildConsoleURL creds deps.sessionDuration
      ∈ (afterAuth profile deps identity calls0 errMsgs).calls)
    (hbuild : deps.buildConsoleURL creds deps.sessionDuration = .error e)
    (hclean : calls0.filter (fun ev => ev.isBuildConsoleURL || ev.isOpenURL) = []) :
    (∃ m, (afterAuth profile deps identity calls0 errMsgs).result = .error m)
    ∧ (afterAuth profile deps identity calls0 errMsgs).calls.countP CallEvent.isOpenURL = 0 := by
  obtain ⟨hnb, hno⟩ := clean_not_mem hclean
  have hopen : calls0.countP CallEvent.isOpenURL = 0 := by
    rw [List.countP_eq_length_filter, clean_filter_open hclean]
    rfl
  cases hr : deps.retrieveCredentials profile with
  | error e' =>
      rw [afterAuth_retrieveErr hr] at hmem
      rcases List.mem_append.mp hmem with hin | hin
      · exact absurd hin (hnb _ _)
      · simp at hin
  | ok creds' =>
      by_cases ht : creds'.sessionToken = ""
      · cases hs : deps.getSessionToken profile deps.sessionDuration with
        | error e' =>
            rw [afterAuth_noTokenErr hr ht hs] at hmem
            rcases List.mem_append.mp hmem with hin | hin
            · exact absurd hin (hnb _ _)
            · simp at hin
        | ok creds2 =>
            rw [afterAuth_noTokenOk hr ht hs] at hmem ⊢
            cases hb2 : deps.buildConsoleURL creds2 deps.sessionDuration with
            | error e' =>
                rw [buildAndOpen_err hb2]
                refine ⟨⟨_, rfl⟩, ?_⟩
                rw [List.countP_append, List.countP_append, hopen]
                rfl
            | ok u =>
                rw [buildAndOpen_ok hb2] at hmem
                rcases List.mem_append.mp hmem with hin | hin
                · rcases List.mem_append.mp hin with hin2 | hin2
                  · exact absurd hin2 (hnb _ _)
                  · simp at hin2
                · simp at hin
                  rw [hin] at hbuild
                  rw [hb2] at hbuild
                  simp at hbuild
      · rw [afterAuth_hasToken hr ht] at hmem ⊢
        cases hb2 : deps.buildConsoleURL creds' deps.sessionDuration with
        | error e' =>
            rw [buildAndOpen_err hb2]
            refine ⟨⟨_, rfl⟩, ?_⟩
            rw [List.countP_append, List.countP_append, hopen]
            rfl
        | ok u =>
            rw [buildAndOpen_ok hb2] at hmem
            rcases List.mem_append.mp hmem with hin | hin
            · rcases List.mem_append.mp hin with hin2 | hin2
              · exact absurd hin2 (hnb _ _)
              · simp at hin2
            · simp at hin
              rw [hin] at hbuild
              rw [hb2] at hbuild
              simp at hbuild

/-- C3: whenever a step fails — the interactive login, the post-login
identity re-check, credential retrieval, the temporary-credentials request,
or building the console URL — the workflow returns an error and no later
collaborator operation appears in the call sequence. -/
theorem workflow_early_return (profile : String) (deps : RunDeps) :
    (∀ e le, deps.getCallerIdentity 0 profile = .error e →
        deps.login profile = .error le →
        (∃ m, (runWorkflow profile deps).result = .error m)
        ∧ (runWorkflow profile deps).calls.countP CallEvent.isRetrieveCredentials = 0
        ∧ (runWorkflow profile deps).calls.countP CallEvent.isGetSessionToken = 0
        ∧ (runWorkflow profile deps).calls.countP CallEvent.isBuildConsoleURL = 0
        ∧ (runWorkflow profile deps).calls.countP CallEvent.isOpenURL = 0)
    ∧ (∀ e e2, deps.getCallerIdentity 0 profile = .error e →
        deps.login profile = .ok () →
        deps.getCallerIdentity 1 profile = .error e2 →
        (∃ m, (runWorkflow profile deps).result = .error m)
        ∧ (runWorkflow profile deps).calls.countP CallEvent.isRetrieveCredentials = 0
        ∧ (runWorkflow profile deps).calls.countP CallEvent.isGetSessionToken = 0
        ∧ (runWorkflow profile deps).calls.countP CallEvent.isBuildConsoleURL = 0
        ∧ (runWorkflow profile deps).calls.countP CallEvent.isOpenURL = 0)
    ∧ (∀ e, CallEvent.retrieveCredentials profile ∈ (runWorkflow profile deps).calls →
        deps.retrieveCredentials profile = .error e →
        (∃ m, (runWorkflow profile deps).result = .error m)
        ∧ (runWorkflow profile deps).calls.countP CallEvent.isGetSessionToken = 0
        ∧ (runWorkflow profile deps).calls.countP CallEvent.isBuildConsoleURL = 0
        ∧ (runWorkflow profile deps).calls.countP CallEvent.isOpenURL = 0)
    ∧ (∀ creds e, CallEvent.retrieveCredentials profile ∈ (runWorkflow profile deps).calls →
        deps.retrieveCredentials profile = .ok creds →
        creds.sessionToken = "" →
        deps.getSessionToken profile deps.sessionDuration = .error e →
        (∃ m, (runWorkflow profile deps).result = .error m)
        ∧ (runWorkflow profile deps).calls.countP CallEvent.isBuildConsoleURL = 0
        ∧ (runWorkflow profile deps).calls.countP CallEvent.isOpenURL = 0)
    ∧ (∀ creds e,
        CallEvent.buildConsoleURL creds deps.sessionDuration ∈ (runWorkflow profile deps).calls →
        deps.buildConsoleURL creds deps.sessionDuration = .error e →
        (∃ m, (runWorkflow profile deps).result = .error m)
        ∧ (runWorkflow profile deps).calls.countP CallEvent.isOpenURL = 0) := by
  refine ⟨?_, ?_, ?_, ?_, ?_⟩
  · intro e le h0 hl
    rw [runWorkflow_loginErr h0 hl]
    exact ⟨⟨_, rfl⟩, rfl, rfl, rfl, rfl⟩
  · intro e e2 h0 hl h1
    rw [runWorkflow_recheckErr h0 hl h1]
    exact ⟨⟨_, rfl⟩, rfl, rfl, rfl, rfl⟩
  · intro e hmem hr
    cases h0 : deps.getCallerIdentity 0 profile with
    | ok id0 =>
        rw [runWorkflow_firstOk h0, afterAuth_retrieveErr hr]
        exact ⟨⟨_, rfl⟩, rfl, rfl, rfl⟩
    | error e0 =>
        cases hlg : deps.login profile with
        | error le =>
            rw [runWorkflow_loginErr h0 hlg] at hmem
            simp at hmem
        | ok u =>
            obtain ⟨⟩ := u
            cases h1 : deps.getCallerIdentity 1 profile with
            | error e2 =>
                rw [runWorkflow_recheckErr h0 hlg h1] at hmem
                simp at hmem
            | ok id1 =>
                rw [runWorkflow_recheckOk h0 hlg h1, afterAuth_retrieveErr hr]
                exact ⟨⟨_, rfl⟩, rfl, rfl, rfl⟩
  · intro creds e hmem hr ht hs
    cases h0 : deps.getCallerIdentity 0 profile with
    | ok id0 =>
        rw [runWorkflow_firstOk h0, afterAuth_noTokenErr hr ht hs]
        exact ⟨⟨_, rfl⟩, rfl, rfl⟩
    | error e0 =>
        cases hlg : deps.login profile with
        | error le =>
            rw [runWorkflow_loginErr h0 hlg] at hmem
            simp at hmem
        | ok u =>
            obtain ⟨⟩ := u
            cases h1 : deps.getCallerIdentity 1 profile with
            | error e2 =>
                rw [runWorkflow_recheckErr h0 hlg h1] at hmem
                simp at hmem
            | ok id1 =>
                rw [runWorkflow_recheckOk h0 hlg h1, afterAuth_noTokenErr hr ht hs]
                exact ⟨⟨_, rfl⟩, rfl, rfl⟩
  · intro creds e hmem hbuild
    cases h0 : deps.getCallerIdentity 0 profile with
    | ok id0 =>
        rw [runWorkflow_firstOk h0] at hmem ⊢
        exact afterAuth_build_fail hmem hbuild rfl
    | error e0 =>
        cases hlg : deps.login profile with
        | error le =>
            rw [runWorkflow_loginErr h0 hlg] at hmem
            simp at hmem
        | ok u =>
            obtain ⟨⟩ := u
            cases h1 : deps.getCallerIdentity 1 profile with
            | error e2 =>
                rw [runWorkflow_recheckErr h0 hlg h1] at hmem
                simp at hmem
            | ok id1 =>
                rw [runWorkflow_recheckOk h0 hlg h1] at hmem ⊢
                exact afterAuth_build_fail hmem hbuild rfl

end AwsConsole
